import Mathlib

/-!
Verification of the EasyReflectometryLib adapter/collection core.

The Cryspy calculator adapter (`easyReflectometryLib/Interfaces/cryspy.py`)
is embedded shallowly: the wrapped calculator object becomes an explicit
record of its mutable attributes, Python dict/attribute assignment becomes
an update-or-append operation on association lists, and the adapter methods
become state-transforming functions.
-/

/-- A Python runtime value as far as the adapter manipulates it:
`None`, a number, a string, or an opaque object token. -/
inductive PyVal where
  | none : PyVal
  | num (q : Rat) : PyVal
  | str (s : String) : PyVal
  | obj (id : Nat) : PyVal
deriving DecidableEq, Repr

/-- Association-list lookup, mirroring Python `dict.get` / `getattr`. -/
def alookup {α : Type} (l : List (String × α)) (k : String) : Option α :=
  match l with
  | [] => Option.none
  | (k0, v) :: rest => if k0 = k then some v else alookup rest k

/-- Association-list update-or-append, mirroring Python `dict[k] = v` /
`setattr`. -/
def aset {α : Type} (l : List (String × α)) (k : String) (v : α) :
    List (String × α) :=
  match l with
  | [] => [(k, v)]
  | (k0, v0) :: rest =>
      if k0 = k then (k, v) :: rest else (k0, v0) :: aset rest k v

/-- Python `getattr(obj, k, None)` over an attribute association list. -/
def pygetattr (attrs : List (String × PyVal)) (k : String) : PyVal :=
  (alookup attrs k).getD PyVal.none

/-- Table `Cryspy._sample_link` from `cryspy.py`. -/
def sample_link : List (String × String) := [("cif_str", "cif_str")]

/-- Table `Cryspy._crystal_link` from `cryspy.py`. -/
def crystal_link : List (String × String) :=
  [("length_a", "length_a"), ("length_b", "length_b"),
   ("length_c", "length_c"), ("angle_alpha", "angle_alpha"),
   ("angle_beta", "angle_beta"), ("angle_gamma", "angle_gamma")]

/-- Table `Cryspy._instrument_link` from `cryspy.py`. -/
def instrument_link : List (String × String) :=
  [("resolution_u", "u"), ("resolution_v", "v"), ("resolution_w", "w"),
   ("resolution_x", "x"), ("resolution_y", "y"),
   ("wavelength", "wavelength")]

/-- The name translation step shared by the adapter methods:
`if label in table.keys(): label = table[label]`. -/
def transLabel (link : List (String × String)) (label : String) : String :=
  match alookup link label with
  | some native => native
  | Option.none => label

/-- The mutable state of the wrapped `Cryspy` calculator object, as touched
by the adapter: plain attributes (among them `cif_str`), the `conditions`
dict with its nested `conditions["resolution"]` dict, and the `background`
and `pattern` attributes. -/
structure Calculator where
  attrs : List (String × PyVal)
  conditions : List (String × PyVal)
  resolution : List (String × PyVal)
  background : PyVal
  pattern : PyVal
deriving DecidableEq, Repr

/-- Method `Cryspy.get_value`: translate the label through `_sample_link` when
present, then `getattr(self.calculator, value_label, None)`. -/
def get_value (c : Calculator) (value_label : String) : PyVal :=
  pygetattr c.attrs (transLabel sample_link value_label)

/-- Method `Cryspy.set_value`: an early return for the label `"filename"`;
otherwise (after a name translation whose result is unused) the method
unconditionally assigns `self.calculator.cif_str = value`. -/
def set_value (c : Calculator) (value_label : String) (value : PyVal) :
    Calculator :=
  if value_label = "filename" then c
  else { c with attrs := aset c.attrs "cif_str" value }

/-- Method `Cryspy.get_instrument_value`: translate through `_instrument_link`;
the translated name `"wavelength"` reads `conditions.get(label, None)`,
every other name reads `conditions["resolution"].get(label, None)`. -/
def get_instrument_value (c : Calculator) (value_label : String) : PyVal :=
  let label := transLabel instrument_link value_label
  if label = "wavelength" then (alookup c.conditions label).getD PyVal.none
  else (alookup c.resolution label).getD PyVal.none

/-- Method `Cryspy.set_instrument_value`: translate through `_instrument_link`;
the translated name `"wavelength"` writes `conditions[label] = value`,
every other name writes `conditions["resolution"][label] = value`. -/
def set_instrument_value (c : Calculator) (value_label : String)
    (value : PyVal) : Calculator :=
  let label := transLabel instrument_link value_label
  if label = "wavelength" then
    { c with conditions := aset c.conditions label value }
  else
    { c with resolution := aset c.resolution label value }

/-- Method `Cryspy.get_background_value`: assigns
`self.calculator.background = background` and falls off the end of the
function, i.e. returns Python `None`; the index argument is unused (the
indexed logic is commented out in the source). -/
def get_background_value (c : Calculator) (background : PyVal)
    (value_label : Int) : Calculator × PyVal :=
  ({ c with background := background }, PyVal.none)

/-- Method `Cryspy.set_background_value`: assigns
`self.calculator.background = background`; the index and value arguments
are unused (the indexed logic is commented out in the source). -/
def set_background_value (c : Calculator) (background : PyVal)
    (value_label : Int) (value : PyVal) : Calculator :=
  { c with background := background }

/-- Method `Cryspy.set_pattern_value`: assigns
`self.calculator.pattern = pattern`; the index and value arguments are
unused. -/
def set_pattern_value (c : Calculator) (pattern : PyVal)
    (value_label : Int) (value : PyVal) : Calculator :=
  { c with pattern := pattern }

/-- One iteration of the `bulk_update` loop body: route the pair to
`set_value` when the label is a `_sample_link` key, to
`set_instrument_value` when it is an `_instrument_link` key, and do
nothing otherwise. -/
def bulkStep (c : Calculator) (pair : String × PyVal) : Calculator :=
  if (alookup sample_link pair.1).isSome then set_value c pair.1 pair.2
  else if (alookup instrument_link pair.1).isSome then
    set_instrument_value c pair.1 pair.2
  else c

/-- Method `Cryspy.bulk_update`: `for label, value in zip(labels, values)` running
the routing loop body serially. The `external` flag is accepted but unused
by the source. -/
def bulk_update (c : Calculator) (value_label_list : List String)
    (value_list : List PyVal) (external : Bool) : Calculator :=
  (value_label_list.zip value_list).foldl bulkStep c

/-!
Embedding of `EasyReflectometry/sample/elements/materials/material.py`.
The easyCore `Parameter` container (an external dependency) is modelled as
a record of the data its constructor receives: display name, value, and
the metadata keyword arguments. Infinite bounds are represented
explicitly. -/

/-- A bound value: `-np.Inf`, `np.Inf`, or a finite number. -/
inductive Bound where
  | negInf : Bound
  | posInf : Bound
  | fin (q : Rat) : Bound
deriving DecidableEq, Repr

/-- The easyCore `Parameter(name, value, **metadata)` container, as the
repository constructs it. -/
structure Parameter where
  name : String
  value : Rat
  description : String
  url : String
  units : String
  min : Bound
  max : Bound
  fixed : Bool
deriving DecidableEq, Repr

/-- One entry of the `MATERIAL_DEFAULTS` dictionary. -/
structure ParamDefault where
  description : String
  url : String
  value : Rat
  units : String
  min : Bound
  max : Bound
  fixed : Bool
deriving DecidableEq, Repr

/-- Entry `MATERIAL_DEFAULTS["sld"]` from `material.py`. -/
def MATERIAL_DEFAULTS_sld : ParamDefault :=
  { description :=
      "The real scattering length density for a material in e-6 per squared angstrom."
  , url := "https://www.ncnr.nist.gov/resources/activation/"
  , value := 4.186
  , units := "1 / angstrom ** 2"
  , min := Bound.negInf
  , max := Bound.posInf
  , fixed := true }

/-- Entry `MATERIAL_DEFAULTS["isld"]` from `material.py`. -/
def MATERIAL_DEFAULTS_isld : ParamDefault :=
  { description :=
      "The imaginary scattering length density for a material in e-6 per squared angstrom."
  , url := "https://www.ncnr.nist.gov/resources/activation/"
  , value := 0.0
  , units := "1 / angstrom ** 2"
  , min := Bound.negInf
  , max := Bound.posInf
  , fixed := true }

/-- Build a `Parameter` from a default entry with the default value kept
(as `Material.default` does). -/
def Parameter.ofDefault (name : String) (d : ParamDefault) : Parameter :=
  { name := name, value := d.value, description := d.description
  , url := d.url, units := d.units, min := d.min, max := d.max
  , fixed := d.fixed }

/-- Build a `Parameter` from a caller value plus a default entry whose
`value` key has been deleted (as `Material.from_pars` does). -/
def Parameter.ofPars (name : String) (value : Rat) (d : ParamDefault) :
    Parameter :=
  { name := name, value := value, description := d.description
  , url := d.url, units := d.units, min := d.min, max := d.max
  , fixed := d.fixed }

/-- The `Material` element: two owned `Parameter`s and a name. -/
structure Material where
  sld : Parameter
  isld : Parameter
  name : String
deriving DecidableEq, Repr

/-- Constructor `Material.default()`: both parameters built entirely from
`MATERIAL_DEFAULTS`, name left at `'EasyMaterial'`. -/
def Material.default : Material :=
  { sld := Parameter.ofDefault "sld" MATERIAL_DEFAULTS_sld
  , isld := Parameter.ofDefault "isld" MATERIAL_DEFAULTS_isld
  , name := "EasyMaterial" }

/-- Constructor `Material.from_pars(sld, isld, name)`: deep-copies
`MATERIAL_DEFAULTS`, deletes the `value` keys, and constructs each
`Parameter` with the caller-supplied value and the remaining metadata. -/
def Material.from_pars (sld : Rat) (isld : Rat) (name : String) : Material :=
  { sld := Parameter.ofPars "sld" sld MATERIAL_DEFAULTS_sld
  , isld := Parameter.ofPars "isld" isld MATERIAL_DEFAULTS_isld
  , name := name }

/-!
The `Model`/`Structure` aggregate and its adapter storage mirror. The code
of `Model.add_item`/`duplicate_item`/`remove_item`, `Structure` and the
refnx adapter storage is not part of the reviewed sources (only its tests
are), so these definitions are modelled from the specification. -/

/-- Modelled from the spec: a structural `Item` as the storage-mirroring
logic sees it — a name plus the identities of the layers it references
(layers may be shared between items). `Model`, `Structure` and the refnx
adapter are missing from the reviewed sources. -/
structure ItemT where
  name : String
  layers : List Nat
deriving DecidableEq, Repr

/-- Modelled from the spec: the adapter's mirrored storage mapping,
restricted to its `"item"` and `"layer"` lists of calculator-native
records (records are identified by tokens). -/
structure Storage where
  items : List Nat
  layers : List Nat
deriving DecidableEq, Repr

/-- Modelled from the spec: the state of a `Model` with an attached
interface — the domain `Structure` (an ordered list of items), the
adapter's mirrored storage, and a counter supplying fresh identities. -/
structure ModelState where
  struct : List ItemT
  storage : Storage
  nextId : Nat
deriving DecidableEq, Repr

/-- Modelled from the spec: mirror the layers of an incoming item into the
storage `"layer"` list — already present layers (shared) are not
re-inserted, genuinely new ones are appended. -/
def mirrorLayers (existing : List Nat) : List Nat → List Nat
  | [] => existing
  | l :: rest =>
      mirrorLayers (if l ∈ existing then existing else existing ++ [l]) rest

/-- The number of genuinely new (non-shared) layers `mirrorLayers` inserts:
distinct layer identities of the item not already mirrored. -/
def countNewLayers (existing : List Nat) : List Nat → Nat
  | [] => 0
  | l :: rest =>
      if l ∈ existing then countNewLayers existing rest
      else countNewLayers (existing ++ [l]) rest + 1

/-- Modelled from the spec: `Model.add_item` with an attached interface —
append the item to the `Structure`, add exactly one `"item"` record, and
mirror only the item's not-yet-mirrored layers. -/
def addItem (m : ModelState) (it : ItemT) : ModelState :=
  { struct := m.struct ++ [it]
  , storage :=
      { items := m.storage.items ++ [m.nextId]
      , layers := mirrorLayers m.storage.layers it.layers }
  , nextId := m.nextId + 1 }

/-- Modelled from the spec: `Model.duplicate_item(i)` with an attached
interface — append a deep, independent copy of the item at index `i`
(fresh identities for the copy and its layer records) and add exactly one
`"item"` record plus the copy's fresh layer records. An out-of-range index
is a fatal usage error in the source; it is modelled as a no-op so the
operation is total. -/
def duplicateItem (m : ModelState) (i : Nat) : ModelState :=
  match m.struct.get? i with
  | Option.none => m
  | some it =>
      let freshLayers :=
        (List.range it.layers.length).map (fun k => m.nextId + 1 + k)
      { struct := m.struct ++ [{ name := it.name, layers := freshLayers }]
      , storage :=
          { items := m.storage.items ++ [m.nextId]
          , layers := mirrorLayers m.storage.layers freshLayers }
      , nextId := m.nextId + 1 + it.layers.length }

/-- Modelled from the spec: `Model.remove_item(i)` with an attached
interface — delete the item at index `i` and its mirrored `"item"` record;
layer records are retained (shared layers referenced by remaining items
must not disappear). -/
def removeItem (m : ModelState) (i : Nat) : ModelState :=
  { struct := m.struct.eraseIdx i
  , storage :=
      { items := m.storage.items.eraseIdx i, layers := m.storage.layers }
  , nextId := m.nextId }

/-- A collection index operation on a model with an attached interface. -/
inductive ModelOp where
  | add (it : ItemT) : ModelOp
  | dup (i : Nat) : ModelOp
  | rem (i : Nat) : ModelOp
deriving DecidableEq, Repr

/-- Apply one collection index operation. -/
def applyOp (m : ModelState) : ModelOp → ModelState
  | ModelOp.add it => addItem m it
  | ModelOp.dup i => duplicateItem m i
  | ModelOp.rem i => removeItem m i

/-- Apply a sequence of collection index operations, first to last. -/
def applyOps (m : ModelState) (ops : List ModelOp) : ModelState :=
  ops.foldl applyOp m

/-- The storage-mirror invariant: the `"item"` list of the adapter's
mirrored storage has the same length as the domain `Structure`. -/
def synced (m : ModelState) : Prop :=
  m.storage.items.length = m.struct.length

instance : DecidablePred synced := fun m =>
  inferInstanceAs (Decidable (m.storage.items.length = m.struct.length))

/-!
The generic collection `duplicate(index)` operation. `BaseCollection` /
`Layers` / `Structure` index operations are not part of the reviewed
sources (only `LayerCollection.__init__` and the tests are), so the
operation is modelled from the specification. -/

/-- Modelled from the spec: a collection entity — an identity, a display
name, and its numeric field values. -/
structure Entity where
  id : Nat
  name : String
  fields : List Rat
deriving DecidableEq, Repr

/-- Modelled from the spec: an ordered, mutable collection of entities,
with a counter supplying fresh identities. -/
structure Collection where
  entities : List Entity
  nextId : Nat
deriving DecidableEq, Repr

/-- Well-formedness of the identity supply: every entity already in the
collection has an identity below the fresh-identity counter. -/
def Collection.wf (c : Collection) : Prop :=
  ∀ e ∈ c.entities, e.id < c.nextId

instance (c : Collection) : Decidable c.wf :=
  inferInstanceAs (Decidable (∀ e ∈ c.entities, e.id < c.nextId))

/-- Modelled from the spec: `duplicate(index)` — create a deep,
independent copy of the entity at `index` with identical field values but
a fresh identity, and append it. An out-of-range index is a fatal usage
error in the source; it is modelled as a no-op so the operation is
total. -/
def Collection.duplicate (c : Collection) (i : Nat) : Collection :=
  match c.entities.get? i with
  | Option.none => c
  | some e =>
      { entities := c.entities ++ [{ e with id := c.nextId }]
      , nextId := c.nextId + 1 }

/-- Modelled from the spec: mutate field `k` of the entity at index `j` to
`v` (entities are independent values: writing through one touches no
other). -/
def Collection.mutateField (c : Collection) (j : Nat) (k : Nat) (v : Rat) :
    Collection :=
  match c.entities.get? j with
  | Option.none => c
  | some e =>
      { c with entities := c.entities.set j { e with fields := e.fields.set k v } }

/-- Following the spec's words for the refinement comparison: sequentially
apply, in list order over the zipped pairs, `set_value(label, value)` for
each label found in `_sample_link` and `set_instrument_value(label,
value)` for each label found in `_instrument_link` (labels in neither are
skipped). -/
def serialUpdate (c : Calculator) : List (String × PyVal) → Calculator
  | [] => c
  | (l, v) :: rest =>
      serialUpdate
        (if (alookup sample_link l).isSome then set_value c l v
         else if (alookup instrument_link l).isSome then
           set_instrument_value c l v
         else c) rest

/-- A concrete calculator state used to instantiate theorems with
hypotheses. -/
def calcW : Calculator :=
  { attrs := [("foo", PyVal.num 1)]
  , conditions := [("wavelength", PyVal.num 2)]
  , resolution := []
  , background := PyVal.none
  , pattern := PyVal.none }

/-- A concrete model state mirroring the test scenario: one item holding
two mirrored layers, with the adapter storage in sync. -/
def modelW : ModelState :=
  { struct := [{ name := "twoLayerItem1", layers := [0, 1] }]
  , storage := { items := [10], layers := [0, 1] }
  , nextId := 11 }

/-- The test scenario's operation sequence: add an item sharing both
layers, duplicate the added item, remove the first item. -/
def opsW : List ModelOp :=
  [ModelOp.add { name := "oneLayerItem2", layers := [1, 0] },
   ModelOp.dup 1, ModelOp.rem 0]

/-- A concrete collection used to instantiate the duplicate theorem. -/
def collW : Collection :=
  { entities := [{ id := 0, name := "thinBoron", fields := [5, 2] }]
  , nextId := 1 }

/-!
Helper lemmas shared by the claim theorems. -/

theorem alookup_aset {α : Type} (l : List (String × α)) (k : String)
    (v : α) : alookup (aset l k v) k = some v := by
  induction l with
  | nil => simp [aset, alookup]
  | cons p rest ih =>
      obtain ⟨k0, v0⟩ := p
      by_cases h : k0 = k
      · simp [aset, alookup, h]
      · simp [aset, alookup, h, ih]

theorem mirrorLayers_length (ls : List Nat) :
    ∀ e : List Nat,
      (mirrorLayers e ls).length = e.length + countNewLayers e ls := by
  induction ls with
  | nil => intro e; simp [mirrorLayers, countNewLayers]
  | cons l rest ih =>
      intro e
      by_cases h : l ∈ e
      · simp [mirrorLayers, countNewLayers, h, ih]
      · simp [mirrorLayers, countNewLayers, h, ih]
        omega

theorem length_eraseIdx_congr {α β : Type} (l1 : List α) (l2 : List β)
    (i : Nat) (h : l1.length = l2.length) :
    (l1.eraseIdx i).length = (l2.eraseIdx i).length := by
  simp [List.length_eraseIdx, h]

theorem synced_applyOp (m : ModelState) (op : ModelOp) (h : synced m) :
    synced (applyOp m op) := by
  cases op with
  | add it =>
      simp only [synced, applyOp, addItem, List.length_append,
        List.length_cons, List.length_nil] at h ⊢
      omega
  | dup i =>
      simp only [synced, applyOp, duplicateItem] at h ⊢
      cases hg : m.struct.get? i with
      | none => simpa using h
      | some it =>
          simp only [synced, List.length_append, List.length_cons,
            List.length_nil] at h ⊢
          omega
  | rem i =>
      simp only [synced, applyOp, removeItem] at h ⊢
      exact length_eraseIdx_congr _ _ _ h

/-!
Claim theorems. -/

/-- C2 counterexample: the claim that `set_value(L, v)` sets the attribute
named by the sample-link translation of `L` is false. At the label
`"foo"` (not a `_sample_link` key, so its translation is `"foo"` itself),
writing `5` does not change the attribute `"foo"`: reading it back still
yields its old value `1`, because the source writes `calculator.cif_str`
instead. -/
theorem set_value_generic_passthrough_cex :
    ¬ get_value (set_value calcW "foo" (PyVal.num 5)) "foo" = PyVal.num 5 := by
  decide

/-- C2 (amended): `set_value(L, v)` returns immediately with no state
change when `L = "filename"`; for every other label it assigns `v` to
`calculator.cif_str`, ignoring the translated name — so the claimed
set/get passthrough holds exactly for labels whose sample-link
translation is `"cif_str"`. `get_value(L)` does read back the attribute
named by the sample-link translation of `L` (`L` itself when `L` is not a
`_sample_link` key). -/
theorem set_value_writes_cif_str (c : Calculator) (L : String) (v : PyVal)
    (h : L ≠ "filename") :
    set_value c L v = { c with attrs := aset c.attrs "cif_str" v } ∧
    get_value c L = (alookup c.attrs (transLabel sample_link L)).getD PyVal.none ∧
    get_value (set_value c "cif_str" v) "cif_str" = v := by
  refine ⟨by simp [set_value, h], rfl, ?_⟩
  simp [set_value, get_value, pygetattr, transLabel, sample_link, alookup,
    alookup_aset]

/-- Witness for C2's amended theorem at the label `"foo"` and the concrete
calculator `calcW`. -/
theorem set_value_writes_cif_str_witness :
    ("foo" : String) ≠ "filename" ∧
    get_value (set_value calcW "cif_str" (PyVal.num 5)) "cif_str" =
      PyVal.num 5 :=
  ⟨by decide, (set_value_writes_cif_str calcW "foo" (PyVal.num 5)
    (by decide)).2.2⟩

/-- C3: after `bulk_update(["resolution_u"], [7.5], True)`,
`get_instrument_value("resolution_u")` returns `7.5`, for every starting
calculator state. -/
theorem bulk_update_resolution_u_roundtrip (c : Calculator) :
    get_instrument_value
      (bulk_update c ["resolution_u"] [PyVal.num 7.5] true)
      "resolution_u" = PyVal.num 7.5 := by
  simp only [bulk_update, List.zip, List.zipWith, List.foldl, bulkStep,
    get_instrument_value, set_instrument_value, transLabel, sample_link,
    instrument_link, alookup]
  simp [alookup_aset]

/-- C4: a label that is a key of neither `_sample_link` nor
`_instrument_link` (for example the `_crystal_link` labels) makes the
`bulk_update` loop body a no-op for that pair, and the pair can be dropped
from a `bulk_update` call without changing the result. -/
theorem bulk_update_drops_unknown_label (c : Calculator) (label : String)
    (v : PyVal) (ls : List String) (vs : List PyVal) (ext : Bool)
    (hs : alookup sample_link label = Option.none)
    (hi : alookup instrument_link label = Option.none) :
    bulkStep c (label, v) = c ∧
    bulk_update c (label :: ls) (v :: vs) ext = bulk_update c ls vs ext := by
  have h1 : bulkStep c (label, v) = c := by simp [bulkStep, hs, hi]
  exact ⟨h1, by simp [bulk_update, List.zip, List.zipWith, List.foldl, h1]⟩

/-- Witness for C4 at the crystal-link label `"length_a"` and the
concrete calculator `calcW`. -/
theorem bulk_update_drops_unknown_label_witness :
    alookup sample_link "length_a" = Option.none ∧
    alookup instrument_link "length_a" = Option.none ∧
    bulkStep calcW ("length_a", PyVal.num 3) = calcW :=
  ⟨by decide, by decide,
    (bulk_update_drops_unknown_label calcW "length_a" (PyVal.num 3) [] []
      true (by decide) (by decide)).1⟩

/-- C5: `get_instrument_value`/`set_instrument_value` first translate the
label through `_instrument_link` (whose six entries are enumerated below);
when the translated name is `"wavelength"` they read/write the top-level
`conditions["wavelength"]` entry, and for every other label they
read/write the nested `conditions["resolution"]` mapping at the translated
name. -/
theorem instrument_value_dispatch (c : Calculator) (L : String)
    (v : PyVal) :
    get_instrument_value c L =
      (if transLabel instrument_link L = "wavelength"
       then (alookup c.conditions "wavelength").getD PyVal.none
       else (alookup c.resolution
         (transLabel instrument_link L)).getD PyVal.none) ∧
    set_instrument_value c L v =
      (if transLabel instrument_link L = "wavelength"
       then { c with conditions := aset c.conditions "wavelength" v }
       else { c with resolution := aset c.resolution (transLabel instrument_link L) v }) ∧
    transLabel instrument_link "resolution_u" = "u" ∧
    transLabel instrument_link "resolution_v" = "v" ∧
    transLabel instrument_link "resolution_w" = "w" ∧
    transLabel instrument_link "resolution_x" = "x" ∧
    transLabel instrument_link "resolution_y" = "y" ∧
    transLabel instrument_link "wavelength" = "wavelength" := by
  refine ⟨?_, ?_, by decide, by decide, by decide, by decide, by decide,
    by decide⟩
  · by_cases h : transLabel instrument_link L = "wavelength" <;>
      simp [get_instrument_value, h]
  · by_cases h : transLabel instrument_link L = "wavelength" <;>
      simp [set_instrument_value, h]

/-- C8: `bulk_update(labels, values, external)` is extensionally equal to
the serial sequence of single-value calls over the zipped pairs in list
order — `set_value` for sample-link labels, `set_instrument_value` for
instrument-link labels — for every starting state and argument lists. -/
theorem bulk_update_eq_serial (c : Calculator) (ls : List String)
    (vs : List PyVal) (ext : Bool) :
    bulk_update c ls vs ext = serialUpdate c (ls.zip vs) := by
  unfold bulk_update
  generalize ls.zip vs = ps
  induction ps generalizing c with
  | nil => rfl
  | cons p rest ih =>
      obtain ⟨l, v⟩ := p
      show List.foldl bulkStep (bulkStep c (l, v)) rest = _
      rw [ih (bulkStep c (l, v))]
      rfl

/-- C9: `get_background_value`, `set_background_value` and
`set_pattern_value` only reassign the whole `background`/`pattern`
attribute on the calculator; the index and value arguments have no effect
(passing different ones yields the identical state), `get_background_value`
returns Python `None`, and every other component of the calculator state
is untouched. -/
theorem background_pattern_whole_assign (c : Calculator) (bg pat : PyVal)
    (i j : Int) (v w : PyVal) :
    get_background_value c bg i = ({ c with background := bg }, PyVal.none) ∧
    set_background_value c bg i v = { c with background := bg } ∧
    set_pattern_value c pat j w = { c with pattern := pat } ∧
    set_background_value c bg i v = set_background_value c bg 0 PyVal.none ∧
    set_pattern_value c pat j w = set_pattern_value c pat 0 PyVal.none ∧
    (set_background_value c bg i v).attrs = c.attrs ∧
    (set_background_value c bg i v).conditions = c.conditions ∧
    (set_background_value c bg i v).resolution = c.resolution ∧
    (set_background_value c bg i v).pattern = c.pattern ∧
    (set_pattern_value c pat j w).background = c.background :=
  ⟨rfl, rfl, rfl, rfl, rfl, rfl, rfl, rfl, rfl, rfl⟩

/-- C10: `set_value("filename", v)` returns immediately without modifying
any calculator state (in particular `calculator.cif_str` is unchanged),
for every starting state and value. -/
theorem set_value_filename_noop (c : Calculator) (v : PyVal) :
    set_value c "filename" v = c := by
  simp [set_value]

/-- C6: for every `Material.from_pars(sld, isld, name)`, reading back each
field returns exactly the supplied value — the `sld` parameter's value,
the `isld` parameter's value, and the name — while bounds, units and the
fixed flag of both parameters come from the `MATERIAL_DEFAULTS`
metadata. -/
theorem from_pars_roundtrip (s i : Rat) (n : String) :
    (Material.from_pars s i n).sld.value = s ∧
    (Material.from_pars s i n).isld.value = i ∧
    (Material.from_pars s i n).name = n ∧
    (Material.from_pars s i n).sld.min = MATERIAL_DEFAULTS_sld.min ∧
    (Material.from_pars s i n).sld.max = MATERIAL_DEFAULTS_sld.max ∧
    (Material.from_pars s i n).sld.units = MATERIAL_DEFAULTS_sld.units ∧
    (Material.from_pars s i n).sld.fixed = MATERIAL_DEFAULTS_sld.fixed ∧
    (Material.from_pars s i n).isld.min = MATERIAL_DEFAULTS_isld.min ∧
    (Material.from_pars s i n).isld.max = MATERIAL_DEFAULTS_isld.max ∧
    (Material.from_pars s i n).isld.units = MATERIAL_DEFAULTS_isld.units ∧
    (Material.from_pars s i n).isld.fixed = MATERIAL_DEFAULTS_isld.fixed :=
  ⟨rfl, rfl, rfl, rfl, rfl, rfl, rfl, rfl, rfl, rfl, rfl⟩

/-- C1: for a model with an attached interface, after every sequence of
`add_item`/`duplicate_item`/`remove_item` calls the length of the
adapter's mirrored `"item"` storage list equals the number of items in the
domain `Structure`; moreover a single `add_item` grows the `"item"` list
by exactly 1 and the `"layer"` list by exactly the count of the item's
layers not already mirrored (shared layers are not re-inserted). -/
theorem storage_mirror_sync (m : ModelState) (ops : List ModelOp)
    (h : synced m) :
    synced (applyOps m ops) ∧
    ∀ it : ItemT,
      (addItem m it).storage.items.length = m.storage.items.length + 1 ∧
      (addItem m it).storage.layers.length =
        m.storage.layers.length + countNewLayers m.storage.layers it.layers := by
  constructor
  · unfold applyOps
    induction ops generalizing m with
    | nil => exact h
    | cons op rest ih => exact ih (applyOp m op) (synced_applyOp m op h)
  · intro it
    constructor
    · simp [addItem]
    · simp [addItem, mirrorLayers_length]

/-- Witness for C1: the test scenario — one mirrored item with two layers,
then add an item sharing both layers (no new layer records), duplicate,
and remove — keeps the mirror in sync, and the add-step deltas hold for a
concrete shared-layer item. -/
theorem storage_mirror_sync_witness :
    synced modelW ∧ synced (applyOps modelW opsW) ∧
    (addItem modelW { name := "oneLayerItem2", layers := [1, 0] }
      ).storage.items.length = modelW.storage.items.length + 1 ∧
    (addItem modelW { name := "oneLayerItem2", layers := [1, 0] }
      ).storage.layers.length =
      modelW.storage.layers.length +
        countNewLayers modelW.storage.layers [1, 0] := by
  have h := storage_mirror_sync modelW opsW (by decide)
  exact ⟨by decide, h.1,
    (h.2 { name := "oneLayerItem2", layers := [1, 0] }).1,
    (h.2 { name := "oneLayerItem2", layers := [1, 0] }).2⟩

/-- C7: for every collection and in-range index `i`, `duplicate(i)`
appends a new entity whose field values, including its name, are identical
to those of the entity at index `i` but with a distinct identity, grows
the collection by exactly 1, and subsequently mutating any field of the
copy leaves the entity at index `i` unchanged. -/
theorem duplicate_fresh_copy (c : Collection) (i : Nat)
    (h : i < c.entities.length) (hwf : c.wf) :
    (c.duplicate i).entities.length = c.entities.length + 1 ∧
    (c.duplicate i).entities.get? c.entities.length =
      some { c.entities.get ⟨i, h⟩ with id := c.nextId } ∧
    (c.entities.get ⟨i, h⟩).id ≠ c.nextId ∧
    ∀ (k : Nat) (v : Rat),
      ((c.duplicate i).mutateField c.entities.length k v).entities.get? i =
        c.entities.get? i := by
  have hg : c.entities.get? i = some (c.entities.get ⟨i, h⟩) :=
    List.get?_eq_get h
  have hdup : c.duplicate i =
      { entities :=
          c.entities ++ [{ c.entities.get ⟨i, h⟩ with id := c.nextId }]
      , nextId := c.nextId + 1 } := by
    unfold Collection.duplicate
    rw [hg]
  have hlen : (c.duplicate i).entities.length = c.entities.length + 1 := by
    rw [hdup]; simp
  have hcopy : (c.duplicate i).entities.get? c.entities.length =
      some { c.entities.get ⟨i, h⟩ with id := c.nextId } := by
    rw [hdup]
    exact List.get?_concat_length _ _
  refine ⟨hlen, hcopy, ?_, ?_⟩
  · have hmem : c.entities.get ⟨i, h⟩ ∈ c.entities := List.get_mem _ _ h
    have := hwf _ hmem
    omega
  · intro k v
    unfold Collection.mutateField
    rw [hcopy]
    have hne : c.entities.length ≠ i := Nat.ne_of_gt h
    calc ((c.duplicate i).entities.set c.entities.length
            { { c.entities.get ⟨i, h⟩ with id := c.nextId } with
              fields := ({ c.entities.get ⟨i, h⟩ with
                id := c.nextId }).fields.set k v }).get? i
        = (c.duplicate i).entities.get? i := List.get?_set_ne _ _ hne
      _ = c.entities.get? i := by
          rw [hdup]
          exact List.get?_append h

/-- Witness for C7 at the concrete one-entity collection `collW` and
index 0. -/
theorem duplicate_fresh_copy_witness :
    0 < collW.entities.length ∧ collW.wf ∧
    (collW.duplicate 0).entities.length = collW.entities.length + 1 :=
  ⟨by decide, by decide,
    (duplicate_fresh_copy collW 0 (by decide) (by decide)).1⟩
